import Mathlib

/-
Shallow embedding of the pingg terminal latency plotter (src/main.rs).

Modelling conventions:
* Rust f64 values are modelled as rationals (ℚ); the program only compares
  latencies, adds the constant 5.0 headroom, and stores parsed decimal
  literals, all of which are exact in ℚ.
* Rust usize is modelled as ℕ.  The expression sequence_num - len on usize
  overflows when sequence_num < len; a debug build panics there and a release
  build wraps around to a near-2^64 loop bound, so in either build the update
  never reaches a meaningful state.  Abnormal termination of this kind is
  modelled by returning none.
* The unchecked unwrap calls in the parser (PingRunner::next) abort the
  process on failure; that abort is modelled by the NextResult.panicked
  constructor.
* The ping subprocess is modelled as the list of stdout lines it produces;
  read_line returning an empty string at end of file corresponds to the
  empty list.
-/

namespace Pingg

/-- Packets produced by the parser, mirroring enum Packet in main.rs.
The Dropped variant carries a time field in the source (always 0.0 as
produced by the parser). -/
inductive Packet where
  | received (sequence_num : ℕ) (time : ℚ)
  | dropped (sequence_num : ℕ) (time : ℚ)
deriving DecidableEq, Repr

/-- One step of whitespace tokenisation, used via foldr: a whitespace
character closes the current word, any other character extends it. -/
def wordStep (c : Char) (acc : List (List Char)) : List (List Char) :=
  if c.isWhitespace then [] :: acc
  else
    match acc with
    | [] => [[c]]
    | w :: ws => (c :: w) :: ws

/-- Whitespace tokenisation of a line, mirroring
line.split_ascii_whitespace().collect() in PingRunner::next: maximal runs of
non-whitespace characters, empty tokens discarded. -/
def words (cs : List Char) : List (List Char) :=
  (cs.foldr wordStep []).filter (· ≠ [])

/-- Value of a string of decimal digits. -/
def natVal (cs : List Char) : ℕ :=
  cs.foldl (fun n c => 10 * n + (c.toNat - 48)) 0

/-- Model of str::parse::<usize>(): an optional leading plus sign followed by
at least one decimal digit; anything else is a parse failure (none), on which
the source calls unwrap and panics. -/
def parseNat? (cs : List Char) : Option ℕ :=
  let ds := match cs with
    | '+' :: r => r
    | _ => cs
  if ds ≠ [] ∧ ds.all (·.isDigit) then some (natVal ds) else none

/-- Model of str::parse::<f64>() on the decimal fragment of its grammar: an
optional sign, then digits with an optional fractional part (at least one
digit overall).  Exponents and the inf/nan spellings never occur in ping
output and are not modelled. -/
def parseDec? (cs : List Char) : Option ℚ :=
  let sb : ℚ × List Char := match cs with
    | '-' :: r => (-1, r)
    | '+' :: r => (1, r)
    | _ => (1, cs)
  let ip := sb.2.takeWhile (·.isDigit)
  let rest := sb.2.dropWhile (·.isDigit)
  match rest with
  | [] => if ip = [] then none else some (sb.1 * natVal ip)
  | '.' :: frac =>
      if frac.all (·.isDigit) ∧ (ip ≠ [] ∨ frac ≠ []) then
        some (sb.1 * ((natVal ip : ℚ) + (natVal frac : ℚ) / (10 : ℚ) ^ frac.length))
      else none
  | _ => none

/-- Outcome of one call to PingRunner::next: a parsed packet, the None that
signals end of stream, or a process abort from an unwrap failure. -/
inductive NextResult where
  | yield (p : Packet)
  | eos
  | panicked
deriving DecidableEq, Repr

/-- The token prefix marking the sequence number field. -/
def icmpSeqTag : List Char := "icmp_seq=".data

/-- The token prefix marking the latency field. -/
def timeTag : List Char := "time=".data

/-- One iteration of the token scan in PingRunner::next (lines 157-163):
a token starting with icmp_seq= replaces seq, a token starting with time=
replaces time, any other token is ignored; a failed numeric parse is an
unwrap panic (none). -/
def scanTok (st : ℕ × ℚ) (tok : List Char) : Option (ℕ × ℚ) :=
  if icmpSeqTag.isPrefixOf tok then
    (parseNat? (tok.drop icmpSeqTag.length)).map fun n => (n, st.2)
  else if timeTag.isPrefixOf tok then
    (parseDec? (tok.drop timeTag.length)).map fun q => (st.1, q)
  else
    some st

/-- The token-level body of PingRunner::next (lines 142-168): unwrap of
parts.first() panics on an empty token list; a line whose first token is
Request yields Dropped with the sequence number parsed from the last token;
otherwise the tokens are scanned for icmp_seq= and time= fields, starting
from seq = 0 and time = 0.0, and a Received packet is produced. -/
def parseTokens : List (List Char) → NextResult
  | [] => .panicked
  | firstTok :: restToks =>
      if firstTok = "Request".data then
        match (firstTok :: restToks).getLast? with
        | some lastTok =>
            match parseNat? lastTok with
            | some n => .yield (.dropped n 0)
            | none => .panicked
        | none => .panicked
      else
        match (firstTok :: restToks).foldlM scanTok (0, 0) with
        | some st => .yield (.received st.1 st.2)
        | none => .panicked

/-- Interpretation of one line of ping output in PingRunner::next: an empty
line or a line whose first character is the dash signals end of stream
(lines 137-140); otherwise the line is tokenised and parsed. -/
def parseLine (l : String) : NextResult :=
  if l.data = [] then .eos
  else if l.data.head? = some '-' then .eos
  else parseTokens (words l.data)

/-- State of struct PingRunner: the remaining stdout lines of the ping
subprocess and the done flag. -/
structure PingRunner where
  lines : List String
  done : Bool
deriving DecidableEq, Repr

/-- The Iterator::next implementation for PingRunner (lines 123-169): once
done it returns None without reading; end of file (no line left) reads an
empty string, which sets done; an end-of-stream line sets done; otherwise the
parsed packet is yielded and the line consumed. -/
def PingRunner.next (r : PingRunner) : NextResult × PingRunner :=
  if r.done then (.eos, r)
  else
    match r.lines with
    | [] => (.eos, { r with done := true })
    | l :: rest =>
        match parseLine l with
        | .eos => (.eos, { lines := rest, done := true })
        | .yield p => (.yield p, { r with lines := rest })
        | .panicked => (.panicked, { r with lines := rest })

/-- The App state of main.rs restricted to the data the update logic
touches: the two series and the two axis bounds. -/
structure App where
  received : List (ℚ × ℚ)
  dropped : List (ℚ × ℚ)
  max_latency : ℚ
  max_seqnum : ℚ
deriving DecidableEq, Repr

/-- The two axis bounds, and the bound-growing logic duplicated at lines
51-57 and 69-75 of App::update. -/
structure Viewport where
  max_seqnum : ℚ
  max_latency : ℚ
deriving DecidableEq, Repr

/-- The bound updates of App::update: if sequence_num as f64 is at least
max_seqnum it becomes sequence_num + 5.0, and if time is at least
max_latency it becomes time + 5.0. -/
def Viewport.observe (v : Viewport) (sequence_num : ℕ) (time : ℚ) : Viewport :=
  { max_seqnum :=
      if (sequence_num : ℚ) ≥ v.max_seqnum then (sequence_num : ℚ) + 5 else v.max_seqnum
    max_latency :=
      if time ≥ v.max_latency then time + 5 else v.max_latency }

/-- A whole sequence of observe calls, folded left to right. -/
def observeFold (v : Viewport) (calls : List (ℕ × ℚ)) : Viewport :=
  calls.foldl (fun w c => w.observe c.1 c.2) v

/-- One push of the gap-fill loop at lines 59-61 and 77-79: the source
pushes ((series.len() + i) as f64, -1.0), re-reading the CURRENT length of
the series, which has grown by i since the loop started. -/
def fillStep (s : List (ℚ × ℚ)) (i : ℕ) : List (ℚ × ℚ) :=
  s ++ [(((s.length + i : ℕ) : ℚ), -1)]

/-- The gap-fill loop for i in 0..=n, where n is the loop bound computed
once at entry. -/
def fillRange (s : List (ℚ × ℚ)) (n : ℕ) : List (ℚ × ℚ) :=
  (List.range (n + 1)).foldl fillStep s

/-- The per-series body of App::update (lines 59-63 and 77-81): the loop
bound sequence_num - series.len() is usize subtraction, which overflows when
sequence_num < len (debug panic, near-2^64 wrap in release); that abnormal
termination is modelled as none.  Otherwise the series is extended by the
gap-fill loop and then position sequence_num has its second component set
to time (series[sequence_num].1 = time). -/
def recordSeries (s : List (ℚ × ℚ)) (sequence_num : ℕ) (time : ℚ) :
    Option (List (ℚ × ℚ)) :=
  if sequence_num < s.length then none
  else
    let s2 := fillRange s (sequence_num - s.length)
    match s2.get? sequence_num with
    | some p => some (s2.set sequence_num (p.1, time))
    | none => none

/-- Processing of one packet in App::update (lines 46-83): the bounds are
updated, then the matching series is extended and written. -/
def stepPacket (a : App) (p : Packet) : Option App :=
  match p with
  | .dropped sequence_num time =>
      let v := (Viewport.mk a.max_seqnum a.max_latency).observe sequence_num time
      (recordSeries a.dropped sequence_num time).map fun d =>
        { a with dropped := d, max_seqnum := v.max_seqnum, max_latency := v.max_latency }
  | .received sequence_num time =>
      let v := (Viewport.mk a.max_seqnum a.max_latency).observe sequence_num time
      (recordSeries a.received sequence_num time).map fun r =>
        { a with received := r, max_seqnum := v.max_seqnum, max_latency := v.max_latency }

/-- The App state built by App::new (lines 29-42): empty series,
max_latency 10.0, max_seqnum 100.0. -/
def initApp : App :=
  { received := [], dropped := [], max_latency := 10, max_seqnum := 100 }

/-- Feeding a sequence of packets to App::update, propagating a panic. -/
def runEvents (a : App) (ps : List Packet) : Option App :=
  ps.foldlM stepPacket a

/-- Helper: a single observe call never decreases either bound. -/
lemma observe_le (w : Viewport) (s : ℕ) (t : ℚ) :
    w.max_seqnum ≤ (w.observe s t).max_seqnum ∧
    w.max_latency ≤ (w.observe s t).max_latency := by
  constructor <;> simp only [Viewport.observe] <;> split
  · linarith [ (by assumption : (s : ℚ) ≥ w.max_seqnum) ]
  · exact le_refl _
  · linarith [ (by assumption : t ≥ w.max_latency) ]
  · exact le_refl _

/-- Helper: a fold of observe calls never decreases either bound. -/
lemma observeFold_le (calls : List (ℕ × ℚ)) :
    ∀ v : Viewport, v.max_seqnum ≤ (observeFold v calls).max_seqnum ∧
      v.max_latency ≤ (observeFold v calls).max_latency := by
  induction calls with
  | nil => intro v; exact ⟨le_refl _, le_refl _⟩
  | cons c cs ih =>
      intro v
      have h1 := observe_le v c.1 c.2
      have h2 := ih (v.observe c.1 c.2)
      simp only [observeFold, List.foldl_cons] at h2 ⊢
      exact ⟨le_trans h1.1 h2.1, le_trans h1.2 h2.2⟩

/-- C1: recording Received 10 5.0 followed by Received 3 2.0 does not leave
position 3 set: the gap-fill loop bound 3 - 11 is a usize underflow (a
panic), modelled as none, so the update aborts instead of overwriting the
already-seen position. -/
theorem c1_out_of_order_record_aborts :
    runEvents initApp [.received 10 5, .received 3 2] = none := by
  norm_num [runEvents, stepPacket, recordSeries, fillRange, fillStep, Viewport.observe,
    initApp, List.range_succ, List.foldlM]

/-- C2: the length invariant cannot hold for every event sequence: feeding
Received 1 1.0 then Received 0 1.0 makes the gap-fill loop bound 0 - 2
underflow (a panic), modelled as none, so the store never reaches a state
of length max + 1 for that sequence. -/
theorem c2_length_invariant_aborts :
    runEvents initApp [.received 1 1, .received 0 1] = none := by
  norm_num [runEvents, stepPacket, recordSeries, fillRange, fillStep, Viewport.observe,
    initApp, List.range_succ, List.foldlM]

/-- C3: gap-filled positions are not index-aligned: recording Received 2 7.0
into the empty store leaves the received series as
(0, -1), (2, -1), (4, 7) — position 1 carries sequence number 2 and
position 2 carries sequence number 4, because each push re-reads the grown
length of the series. -/
theorem c3_gap_fill_misaligned :
    runEvents initApp [.received 2 7] =
      some { received := [(0, -1), (2, -1), (4, 7)], dropped := [],
             max_latency := 10, max_seqnum := 100 } := by
  norm_num [runEvents, stepPacket, recordSeries, fillRange, fillStep, Viewport.observe,
    initApp, List.range_succ, List.foldlM]

/-- C4: record is not idempotent: recording Received 0 1.0 once succeeds,
but recording it a second time computes the loop bound 0 - 1 on usize,
which underflows (a panic), modelled as none. -/
theorem c4_double_record_aborts :
    runEvents initApp [.received 0 1] =
      some { received := [(0, 1)], dropped := [], max_latency := 10, max_seqnum := 100 } ∧
    runEvents initApp [.received 0 1, .received 0 1] = none := by
  constructor <;>
    norm_num [runEvents, stepPacket, recordSeries, fillRange, fillStep, Viewport.observe,
      initApp, List.range_succ, List.foldlM]

/-- C5: a line with no icmp_seq= token that does not start with Request is
not reported as a parse error: the scan falls through and fabricates
Received 0 0.0; and a non-numeric sequence token is not skipped: the unwrap
aborts the whole process (panicked), taking the session with it. -/
theorem c5_unparseable_line_not_recovered :
    parseLine "garbage line from tool" = .yield (.received 0 0) ∧
    parseLine "64 bytes from 1.1.1.1: icmp_seq=abc ttl=56 time=1.0 ms" = .panicked := by
  constructor <;> decide

/-- C6: the viewport bounds never decrease, a single observe call included
and any fold of observe calls included; and whenever the observed sequence
number reaches max_seqnum the bound becomes sequence number + 5, and
whenever the observed latency reaches max_latency the bound becomes
latency + 5. -/
theorem c6_viewport_monotone (v : Viewport) (sequence_num : ℕ) (time : ℚ) :
    (v.max_seqnum ≤ (v.observe sequence_num time).max_seqnum ∧
      v.max_latency ≤ (v.observe sequence_num time).max_latency) ∧
    ((sequence_num : ℚ) ≥ v.max_seqnum →
      (v.observe sequence_num time).max_seqnum = (sequence_num : ℚ) + 5) ∧
    (time ≥ v.max_latency →
      (v.observe sequence_num time).max_latency = time + 5) ∧
    (∀ calls : List (ℕ × ℚ),
      v.max_seqnum ≤ (observeFold v calls).max_seqnum ∧
      v.max_latency ≤ (observeFold v calls).max_latency) := by
  refine ⟨observe_le v sequence_num time, ?_, ?_, fun calls => observeFold_le calls v⟩
  · intro h
    simp only [Viewport.observe]
    rw [if_pos h]
  · intro h
    simp only [Viewport.observe]
    rw [if_pos h]

/-- Witness for C6 at the bounds of App::new: observing sequence number 200
with latency 50 grows both bounds by the headroom. -/
theorem c6_viewport_monotone_witness :
    (100 : ℚ) ≤ ((Viewport.mk 100 10).observe 200 50).max_seqnum ∧
    ((Viewport.mk 100 10).observe 200 50).max_seqnum = ((200 : ℕ) : ℚ) + 5 ∧
    ((Viewport.mk 100 10).observe 200 50).max_latency = (50 : ℚ) + 5 := by
  have h := c6_viewport_monotone (Viewport.mk 100 10) 200 50
  exact ⟨h.1.1, h.2.1 (by norm_num), h.2.2.1 (by norm_num)⟩

/-- C7: the canonical success line parses to Received 4 12.3, the sequence
number taken from the icmp_seq= token and the latency from the time=
token. -/
theorem c7_received_line_parses :
    parseLine "64 bytes from 1.1.1.1: icmp_seq=4 ttl=56 time=12.3 ms" =
      .yield (.received 4 12.3) := by
  have h : parseLine "64 bytes from 1.1.1.1: icmp_seq=4 ttl=56 time=12.3 ms" =
      .yield (.received 4 (1 * ((12 : ℚ) + 3 / 10 ^ 1))) := rfl
  have hq : (1 * ((12 : ℚ) + 3 / 10 ^ 1)) = 12.3 := by norm_num
  rw [h, hq]

/-- C8: the canonical timeout line parses to Dropped 7; in general, any
token list whose first token is Request and whose last token parses as the
number n yields Dropped n. -/
theorem c8_request_line_parses :
    parseLine "Request timeout for icmp_seq 7" = .yield (.dropped 7 0) ∧
    ∀ (parts : List (List Char)) (lastTok : List Char) (n : ℕ),
      parts.head? = some "Request".data →
      parts.getLast? = some lastTok →
      parseNat? lastTok = some n →
      parseTokens parts = .yield (.dropped n 0) := by
  constructor
  · decide
  · intro parts lastTok n h1 h2 h3
    match parts with
    | firstTok :: restToks =>
        have h1' : firstTok = "Request".data := by
          simpa using h1
        simp only [parseTokens, if_pos h1']
        rw [h2]
        simp [h3]

/-- Witness for C8: the general rule applied to the tokens of the canonical
timeout line. -/
theorem c8_request_line_parses_witness :
    parseTokens ["Request".data, "timeout".data, "for".data, "icmp_seq".data, "7".data] =
      .yield (.dropped 7 0) :=
  c8_request_line_parses.2 _ "7".data 7 (by decide) (by decide) (by decide)

/-- C9: an empty line or a line starting with a dash parses as end of
stream; a runner seeing such a line returns None and sets done; and once
done every further next call returns None with the state, its pending lines
included, untouched. -/
theorem c9_end_of_stream :
    (∀ l : String, (l.data = [] ∨ l.data.head? = some '-') → parseLine l = .eos) ∧
    (∀ (r : PingRunner) (l : String) (rest : List String),
      r.done = false → r.lines = l :: rest → parseLine l = .eos →
      r.next = (.eos, PingRunner.mk rest true)) ∧
    (∀ r : PingRunner, r.done = true → r.next = (.eos, r)) := by
  refine ⟨?_, ?_, ?_⟩
  · intro l h
    unfold parseLine
    rcases h with h | h
    · rw [if_pos h]
    · by_cases he : l.data = []
      · rw [if_pos he]
      · rw [if_neg he, if_pos h]
  · intro r l rest h1 h2 h3
    unfold PingRunner.next
    rw [if_neg (by simp [h1]), h2]
    simp [h3]
  · intro r h
    unfold PingRunner.next
    rw [if_pos h]

/-- Witness for C9: the statistics trailer line ends the stream, and a
finished runner keeps returning None without touching its pending line. -/
theorem c9_end_of_stream_witness :
    parseLine "--- 1.1.1.1 ping statistics ---" = .eos ∧
    (PingRunner.mk ["Request timeout for icmp_seq 9"] true).next =
      (.eos, PingRunner.mk ["Request timeout for icmp_seq 9"] true) :=
  ⟨c9_end_of_stream.1 _ (Or.inr (by decide)),
   c9_end_of_stream.2.2 _ rfl⟩

/-- C10: App::new starts with max_seqnum 100.0 and max_latency 10.0, and an
observation whose sequence number and latency are strictly below these
bounds leaves both unchanged. -/
theorem c10_initial_bounds :
    initApp.max_seqnum = 100 ∧ initApp.max_latency = 10 ∧
    ∀ (sequence_num : ℕ) (time : ℚ),
      (sequence_num : ℚ) < initApp.max_seqnum → time < initApp.max_latency →
      (Viewport.mk initApp.max_seqnum initApp.max_latency).observe sequence_num time =
        Viewport.mk initApp.max_seqnum initApp.max_latency := by
  refine ⟨rfl, rfl, ?_⟩
  intro s t h1 h2
  simp only [Viewport.observe]
  rw [if_neg (not_le.mpr h1), if_neg (not_le.mpr h2)]

/-- Witness for C10: the observation of sequence number 3 with latency 5
leaves the fresh bounds at 100 and 10. -/
theorem c10_initial_bounds_witness :
    ((3 : ℕ) : ℚ) < initApp.max_seqnum ∧ (5 : ℚ) < initApp.max_latency ∧
    (Viewport.mk initApp.max_seqnum initApp.max_latency).observe 3 5 =
      Viewport.mk initApp.max_seqnum initApp.max_latency :=
  ⟨by norm_num [initApp], by norm_num [initApp],
   c10_initial_bounds.2.2 3 5 (by norm_num [initApp]) (by norm_num [initApp])⟩

end Pingg
